import Mathlib
/-!
Verification development for the Trading_Bot repository: order validation
(`src/utils/validation.py`), the exchange-metadata cache (`ExchangeInfo`),
and the strategy modules (`market_orders.py`, `advanced/stop_limit.py`,
`advanced/oco.py`, `advanced/twap.py`, `advanced/grid_strategy.py`),
shallowly embedded in Lean.  Python floats are embedded as exact rationals
(`ℚ`); the one place where binary-float semantics matters (the step/tick
modulus checks) is treated separately with the exact binary64 values of the
relevant literals.  Strategies are embedded as functions producing a trace
of validator calls and gateway (`futures_create_order`) calls, parameterised
by an arbitrary validator result function and an arbitrary gateway
success/failure pattern.
-/

/-- Python `%` on two floats, for a non-negative dividend and a positive
divisor, as used by `validate_input`: `x - floor(x / y) * y` (for these signs
CPython's `float_rem`/`fmod` agrees with the floor form).  Division by zero
(Python would raise `ZeroDivisionError`) is totalised by `ℚ`'s `x / 0 = 0`
convention, so theorems about the modulus checks carry a positivity
hypothesis on the divisor. -/
def pymod (x y : ℚ) : ℚ := x - (x / y).floor * y

/-- The `PRICE_FILTER` entry of a symbol's filter list: `minPrice`,
`maxPrice`, `tickSize` (exact values of the decimal strings the exchange
returns). -/
structure PriceFilter where
  minPrice : ℚ
  maxPrice : ℚ
  tickSize : ℚ
deriving DecidableEq, Repr

/-- The `LOT_SIZE` entry of a symbol's filter list: `minQty`, `maxQty`,
`stepSize`. -/
structure LotSizeFilter where
  minQty : ℚ
  maxQty : ℚ
  stepSize : ℚ
deriving DecidableEq, Repr

/-- One entry of `exchange_info['symbols']`: the symbol name and its filter
list, of which `validate_input` extracts the `PRICE_FILTER` and `LOT_SIZE`
entries (either may be absent, `None` in the source). -/
structure SymbolInfo where
  symbol : String
  price_filter : Option PriceFilter
  lot_size_filter : Option LotSizeFilter
deriving DecidableEq, Repr

/-- The state of the `ExchangeInfo` singleton: `_info` (the fetched symbol
list, `None` before the first fetch) together with a counter of how many
times `client.futures_exchange_info()` has been called, used to state the
fetch-at-most-once property. -/
structure CacheState where
  fetchCount : ℕ
  info : Option (List SymbolInfo)
deriving DecidableEq, Repr

/-- `ExchangeInfo.__new__`: if the singleton is not yet constructed, fetch
the exchange info (the fetch result is passed in as `fetched`, one network
call counted); otherwise return the existing instance unchanged.  The fatal
path (fetch raises, `sys.exit(1)`) is not modelled: these theorems concern
the post-construction behaviour. -/
def ExchangeInfo.new (fetched : List SymbolInfo) (s : CacheState) : CacheState :=
  match s.info with
  | some _ => s
  | none => { fetchCount := s.fetchCount + 1, info := some fetched }

/-- `ExchangeInfo.get_symbol_info`: scan the cached `_info['symbols']` list
for the first entry with the requested symbol; `None` when `_info` is unset
or the symbol is absent.  A pure read: takes no step that fetches. -/
def get_symbol_info (s : CacheState) (symbol : String) : Option SymbolInfo :=
  match s.info with
  | none => none
  | some l => l.find? (fun si => si.symbol == symbol)

/-- The spec-level `get(symbol)` operation: construct/reuse the singleton
(`ExchangeInfo(client.get_client())`) and look the symbol up, returning the
lookup result together with the cache state afterwards. -/
def cache_get (fetched : List SymbolInfo) (s : CacheState) (symbol : String) :
    Option SymbolInfo × CacheState :=
  let s' := ExchangeInfo.new fetched s
  (get_symbol_info s' symbol, s')

/-- The distinct `logger.error` messages `validate_input` can emit, one per
`return False` site, in source order. -/
inductive ValidationLog where
  | invalidSymbol
  | missingFilters
  | quantityOutOfRange
  | quantityStepMismatch
  | priceOutOfRange
  | priceTickMismatch
deriving DecidableEq, Repr

/-- `validate_input(client, symbol, quantity, price=None)` from
`src/utils/validation.py`, returning the boolean result together with the
list of error messages logged (at most one, since every failing check
returns immediately).  Numbers are exact rationals.  `if price:` in the
source is Python truthiness: the price checks run only when `price` is not
`None` AND not `0`. -/
def validate_input_logged (s : CacheState) (symbol : String) (quantity : ℚ)
    (price : Option ℚ) : Bool × List ValidationLog :=
  match get_symbol_info s symbol with
  | none => (false, [ValidationLog.invalidSymbol])
  | some symbol_info =>
    match symbol_info.price_filter, symbol_info.lot_size_filter with
    | some price_filter, some lot_size_filter =>
      if quantity < lot_size_filter.minQty ∨ quantity > lot_size_filter.maxQty then
        (false, [ValidationLog.quantityOutOfRange])
      else if pymod (quantity - lot_size_filter.minQty) lot_size_filter.stepSize ≠ 0 then
        (false, [ValidationLog.quantityStepMismatch])
      else
        match price with
        | none => (true, [])
        | some p =>
          if p = 0 then (true, [])
          else if p < price_filter.minPrice ∨ p > price_filter.maxPrice then
            (false, [ValidationLog.priceOutOfRange])
          else if pymod (p - price_filter.minPrice) price_filter.tickSize ≠ 0 then
            (false, [ValidationLog.priceTickMismatch])
          else (true, [])
    | _, _ => (false, [ValidationLog.missingFilters])

/-- The return value of `validate_input`: `True`/`False` (the log is a side
effect). -/
def validate_input (s : CacheState) (symbol : String) (quantity : ℚ)
    (price : Option ℚ) : Bool :=
  (validate_input_logged s symbol quantity price).1

/-- The cache contents used throughout the repository's own test suite
(`tests/test_validation.py`, symbol BTCUSDT): `PRICE_FILTER` minPrice 0.01,
maxPrice 100000, tickSize 0.01; `LOT_SIZE` minQty 0.001, maxQty 1000,
stepSize 0.001. -/
def testInfoList : List SymbolInfo :=
  [{ symbol := "BTCUSDT",
     price_filter := some { minPrice := 1/100, maxPrice := 100000, tickSize := 1/100 },
     lot_size_filter := some { minQty := 1/1000, maxQty := 1000, stepSize := 1/1000 } }]

/-- A cache already holding `testInfoList`. -/
def testCache : CacheState := { fetchCount := 1, info := some testInfoList }

/-- Order side, the `'BUY'` / `'SELL'` strings of the source. -/
inductive Side where
  | BUY
  | SELL
deriving DecidableEq, Repr

/-- The opposite side, as computed by `oco.py` for both legs:
`"SELL" if side == "BUY" else "BUY"`. -/
def oppositeSide : Side → Side
  | Side.BUY => Side.SELL
  | Side.SELL => Side.BUY

/-- The `type` values passed to `futures_create_order` by the strategies. -/
inductive OrderType where
  | MARKET
  | LIMIT
  | STOP
  | TAKE_PROFIT
deriving DecidableEq, Repr

/-- The keyword arguments of one `futures_create_order` call. -/
structure OrderIntent where
  symbol : String
  side : Side
  type : OrderType
  quantity : ℚ
  price : Option ℚ
  stopPrice : Option ℚ
  timeInForce : Option String
deriving DecidableEq, Repr

/-- One observable step of a strategy invocation: a call to the order
validator (`validate_input`, with the arguments passed and the boolean it
returned) or a call to the order gateway (`futures_create_order`, with the
order submitted and whether the call succeeded or raised). -/
inductive Event where
  | validate (symbol : String) (quantity : ℚ) (price : Option ℚ) (result : Bool)
  | gateway (intent : OrderIntent) (ok : Bool)
deriving DecidableEq, Repr

/-- The validator as the strategies see it: a deterministic function of the
arguments they pass (`validate_input` is deterministic once the singleton
cache is populated). -/
abbrev Validator : Type := String → ℚ → Option ℚ → Bool

/-- The gateway's behaviour for one strategy invocation: whether the n-th
`futures_create_order` call of the invocation succeeds (`true`) or raises
(`false`). -/
abbrev Gateway : Type := ℕ → Bool

/-- The validator backed by `validate_input` on a given cache state. -/
def validatorOf (s : CacheState) : Validator :=
  fun symbol quantity price => validate_input s symbol quantity price

/-- The orders submitted to the gateway during a trace, in order. -/
def gatewayEvents (t : List Event) : List OrderIntent :=
  t.filterMap fun e =>
    match e with
    | Event.gateway o _ => some o
    | _ => none

/-- A market order intent as built by `market_orders.py` and `twap.py`:
`type=MARKET`, no price, no stop price, no time in force. -/
def marketIntent (symbol : String) (side : Side) (quantity : ℚ) : OrderIntent :=
  { symbol := symbol, side := side, type := OrderType.MARKET, quantity := quantity,
    price := none, stopPrice := none, timeInForce := none }

/-- `place_market_order` from `src/market_orders.py`: validate (no price);
on failure log and return; on success one gateway call. -/
def place_market_order (V : Validator) (G : Gateway) (symbol : String)
    (side : Side) (quantity : ℚ) : List Event :=
  match V symbol quantity none with
  | false => [Event.validate symbol quantity none false]
  | true =>
      [Event.validate symbol quantity none true,
       Event.gateway (marketIntent symbol side quantity) (G 0)]

/-- Modelled from the spec: `place_limit_order` (module `limit_orders.py`) is
absent from `src/`; only its test (`tests/test_limit_orders.py`) and callers
(`app.py`) are present.  Per the spec's Strategy Executor table: one order,
`type=LIMIT`, price required, time-in-force configurable (default GTC), and
the Market failure policy — abort with no gateway call if validation fails,
otherwise a single gateway call. -/
def place_limit_order (V : Validator) (G : Gateway) (symbol : String)
    (side : Side) (quantity : ℚ) (price : ℚ) (tif : String) : List Event :=
  match V symbol quantity (some price) with
  | false => [Event.validate symbol quantity (some price) false]
  | true =>
      [Event.validate symbol quantity (some price) true,
       Event.gateway
         { symbol := symbol, side := side, type := OrderType.LIMIT,
           quantity := quantity, price := some price, stopPrice := none,
           timeInForce := some tif } (G 0)]

/-- `place_stop_limit_order` from `src/advanced/stop_limit.py`: validate the
quantity against the limit price (the stop price is not validated); on
failure log and return; on success one gateway call with `type=STOP`, both
`stopPrice` and `price`, and `timeInForce="GTC"`. -/
def place_stop_limit_order (V : Validator) (G : Gateway) (symbol : String)
    (side : Side) (quantity : ℚ) (stop_price : ℚ) (limit_price : ℚ) :
    List Event :=
  match V symbol quantity (some limit_price) with
  | false => [Event.validate symbol quantity (some limit_price) false]
  | true =>
      [Event.validate symbol quantity (some limit_price) true,
       Event.gateway
         { symbol := symbol, side := side, type := OrderType.STOP,
           quantity := quantity, price := some limit_price,
           stopPrice := some stop_price, timeInForce := some "GTC" } (G 0)]

/-- `place_oco_order` from `src/advanced/oco.py`: validate the quantity
against the take-profit price and then against the stop-loss price
(short-circuit `or`, so the second validation is skipped when the first
fails); on any validation failure log and return with no gateway call.
Otherwise submit the take-profit order (`type='TAKE_PROFIT'`, opposite
side, `stopPrice=take_profit`); if that call raises, the surrounding
`try/except` handles the error and the function returns — the stop-loss
order (`type='STOP'`, opposite side, `stopPrice=stop_loss`) is submitted
only when the take-profit call succeeded. -/
def place_oco_order (V : Validator) (G : Gateway) (symbol : String)
    (side : Side) (quantity : ℚ) (take_profit : ℚ) (stop_loss : ℚ) :
    List Event :=
  match V symbol quantity (some take_profit) with
  | false => [Event.validate symbol quantity (some take_profit) false]
  | true =>
    match V symbol quantity (some stop_loss) with
    | false =>
        [Event.validate symbol quantity (some take_profit) true,
         Event.validate symbol quantity (some stop_loss) false]
    | true =>
      let tpIntent : OrderIntent :=
        { symbol := symbol, side := oppositeSide side,
          type := OrderType.TAKE_PROFIT, quantity := quantity, price := none,
          stopPrice := some take_profit, timeInForce := none }
      let slIntent : OrderIntent :=
        { symbol := symbol, side := oppositeSide side, type := OrderType.STOP,
          quantity := quantity, price := none, stopPrice := some stop_loss,
          timeInForce := none }
      match G 0 with
      | false =>
          [Event.validate symbol quantity (some take_profit) true,
           Event.validate symbol quantity (some stop_loss) true,
           Event.gateway tpIntent false]
      | true =>
          [Event.validate symbol quantity (some take_profit) true,
           Event.validate symbol quantity (some stop_loss) true,
           Event.gateway tpIntent true,
           Event.gateway slIntent (G 1)]

/-- `num_intervals = (duration_minutes * 60) // interval_seconds` from
`src/advanced/twap.py` (integer floor division; `interval_seconds = 0`,
where Python would raise, is totalised by `ℕ`'s `n / 0 = 0`, which lands in
the same no-orders branch). -/
def twap_num_intervals (duration_minutes interval_seconds : ℕ) : ℕ :=
  duration_minutes * 60 / interval_seconds

/-- The loop body of `place_twap_order`: for each remaining interval,
validate the sub-order quantity — on failure log and return, aborting the
remaining intervals — else submit a market order (continuing to the next
interval whether the gateway call succeeds or raises).  `i` counts the
gateway calls already made. -/
def twapLoop (V : Validator) (G : Gateway) (symbol : String) (side : Side)
    (quantity_per_order : ℚ) : ℕ → ℕ → List Event
  | 0, _ => []
  | n + 1, i =>
    match V symbol quantity_per_order none with
    | false => [Event.validate symbol quantity_per_order none false]
    | true =>
        Event.validate symbol quantity_per_order none true ::
        Event.gateway (marketIntent symbol side quantity_per_order) (G i) ::
        twapLoop V G symbol side quantity_per_order n (i + 1)

/-- `place_twap_order` from `src/advanced/twap.py`: if `num_intervals` is
zero, log and return with no orders; otherwise place
`quantity_per_order = total_quantity / num_intervals` market orders, one
per interval (the `time.sleep` between intervals is not part of the trace). -/
def place_twap_order (V : Validator) (G : Gateway) (symbol : String)
    (side : Side) (total_quantity : ℚ)
    (duration_minutes interval_seconds : ℕ) : List Event :=
  let num_intervals := twap_num_intervals duration_minutes interval_seconds
  if num_intervals = 0 then []
  else twapLoop V G symbol side (total_quantity / (num_intervals : ℚ))
    num_intervals 0

/-- `price_step = (upper_bound - lower_bound) / (num_levels - 1)` from
`src/advanced/grid_strategy.py` (guarded by `num_levels > 1`). -/
def grid_price_step (lower_bound upper_bound : ℚ) (num_levels : ℕ) : ℚ :=
  (upper_bound - lower_bound) / ((num_levels : ℚ) - 1)

/-- The price of grid level `i`: `lower_bound + i * price_step`. -/
def gridPrice (lower_bound price_step : ℚ) (i : ℕ) : ℚ :=
  lower_bound + (i : ℚ) * price_step

/-- The side of a grid level: `"BUY" if order_price < (lower_bound +
upper_bound) / 2 else "SELL"` (strict `<`: the midpoint level is SELL). -/
def gridSide (lower_bound upper_bound price : ℚ) : Side :=
  if price < (lower_bound + upper_bound) / 2 then Side.BUY else Side.SELL

/-- The limit order submitted for one grid level. -/
def gridIntent (symbol : String) (lower_bound upper_bound price_step
    quantity_per_level : ℚ) (i : ℕ) : OrderIntent :=
  { symbol := symbol,
    side := gridSide lower_bound upper_bound (gridPrice lower_bound price_step i),
    type := OrderType.LIMIT, quantity := quantity_per_level,
    price := some (gridPrice lower_bound price_step i), stopPrice := none,
    timeInForce := some "GTC" }

/-- The loop body of `place_grid_orders`: for each remaining level, compute
the level price and side, validate quantity and price — on failure log and
return, aborting the remaining levels — else submit the limit order (an
inner `try/except` logs a gateway failure and continues to the next level).
`i` is the current level index, which also counts the gateway calls made. -/
def gridLoop (V : Validator) (G : Gateway) (symbol : String)
    (lower_bound upper_bound price_step quantity_per_level : ℚ) :
    ℕ → ℕ → List Event
  | 0, _ => []
  | n + 1, i =>
    let order_price := gridPrice lower_bound price_step i
    match V symbol quantity_per_level (some order_price) with
    | false => [Event.validate symbol quantity_per_level (some order_price) false]
    | true =>
        Event.validate symbol quantity_per_level (some order_price) true ::
        Event.gateway
          (gridIntent symbol lower_bound upper_bound price_step
            quantity_per_level i) (G i) ::
        gridLoop V G symbol lower_bound upper_bound price_step
          quantity_per_level n (i + 1)

/-- `place_grid_orders` from `src/advanced/grid_strategy.py`: if
`num_levels <= 1`, log and return with no orders; otherwise run the level
loop over `range(num_levels)`. -/
def place_grid_orders (V : Validator) (G : Gateway) (symbol : String)
    (lower_bound upper_bound : ℚ) (num_levels : ℕ)
    (quantity_per_level : ℚ) : List Event :=
  if num_levels ≤ 1 then []
  else gridLoop V G symbol lower_bound upper_bound
    (grid_price_step lower_bound upper_bound num_levels)
    quantity_per_level num_levels 0

/-- Does trace event `e` record a passing validator call covering order `o`:
a `validate` event that returned `True` for `o`'s symbol and quantity and,
when `o` carries a `price`, for that price (market-type submissions carry no
`price`, so any validated price argument covers them). -/
def coversIntent (o : OrderIntent) : Event → Bool
  | Event.validate s q p r =>
      r && decide (s = o.symbol) && decide (q = o.quantity) &&
        (o.price.isNone || decide (p = o.price))
  | Event.gateway _ _ => false

/-- Scan a trace left to right (`pre` holds the events already emitted):
every gateway event must be covered by some earlier passing validate
event. -/
def coveredFrom (pre : List Event) : List Event → Bool
  | [] => true
  | e :: rest =>
      (match e with
       | Event.gateway o _ => pre.any (coversIntent o)
       | Event.validate _ _ _ _ => true) &&
      coveredFrom (e :: pre) rest

/-- Every gateway call of the trace is preceded, within the trace, by a
passing validator call for its order. -/
def gatewayCovered (t : List Event) : Bool := coveredFrom [] t

/-- The exact value of the IEEE-754 binary64 double nearest to the decimal
0.1 — the number Python actually stores for the literal/filter string
`0.1` after `float(...)` conversion in `validate_input`. -/
def float64_of_0_1 : ℚ := 3602879701896397 / 2 ^ 55

/-- The exact value of the IEEE-754 binary64 double nearest to the decimal
0.3 — the number Python stores for an order quantity of 0.3. -/
def float64_of_0_3 : ℚ := 5404319552844595 / 2 ^ 54

/-- The cache as the FLOAT code sees it for a symbol whose `LOT_SIZE`
filter strings are minQty `0.1`, maxQty `100`, stepSize `0.1`: the min and
step hold the binary64 value of 0.1.  The binary64 subtraction
`0.3 - 0.1` is exact here (the exact difference has a 53-bit numerator, see
`claim_C6_float_step_check`), and CPython's float `%` is exact on its
operands, so evaluating the embedded `validate_input` on these rational
values reproduces the float computation of the source bit for bit at this
input. -/
def floatStepCache : CacheState :=
  { fetchCount := 1,
    info := some
      [{ symbol := "BTCUSDT",
         price_filter :=
           some { minPrice := 1/100, maxPrice := 100000, tickSize := 1/100 },
         lot_size_filter :=
           some { minQty := float64_of_0_1, maxQty := 100,
                  stepSize := float64_of_0_1 } }] }

/-- The same filters under exact decimal arithmetic, as the claim
requires: minQty 0.1 = 1/10, maxQty 100, stepSize 1/10. -/
def decimalStepCache : CacheState :=
  { fetchCount := 1,
    info := some
      [{ symbol := "BTCUSDT",
         price_filter :=
           some { minPrice := 1/100, maxPrice := 100000, tickSize := 1/100 },
         lot_size_filter :=
           some { minQty := 1/10, maxQty := 100, stepSize := 1/10 } }] }

theorem pymod_def (x y : ℚ) : pymod x y = x - ⌊x / y⌋ * y := by
  unfold pymod
  rw [Rat.floor_def' (x / y), Rat.floor_def]

example : pymod (2/10 - 1/10) (1/10) = 0 := by norm_num [pymod_def]

example : pymod (25/10000 - 1/1000) (1/1000) ≠ 0 := by norm_num [pymod_def]

example : validate_input testCache "BTCUSDT" (2/1000) none = true := by
  norm_num [validate_input, validate_input_logged, get_symbol_info, testCache,
    testInfoList, pymod_def]

example : validate_input testCache "XYZUSDT" (2/1000) none = false := by
  have h : get_symbol_info testCache "XYZUSDT" = none := rfl
  norm_num [validate_input, validate_input_logged, h]

example : validate_input testCache "BTCUSDT" (25/10000) none = false := by
  norm_num [validate_input, validate_input_logged, get_symbol_info, testCache,
    testInfoList, pymod_def]

example : validate_input testCache "BTCUSDT" (2/1000) (some 0) = true := by
  norm_num [validate_input, validate_input_logged, get_symbol_info, testCache,
    testInfoList, pymod_def]

example : validate_input testCache "BTCUSDT" (2/1000) (some (5/1000)) = false := by
  norm_num [validate_input, validate_input_logged, get_symbol_info, testCache,
    testInfoList, pymod_def]

theorem coveredFrom_twapLoop (V : Validator) (G : Gateway) (symbol : String)
    (side : Side) (q : ℚ) :
    ∀ (n i : ℕ) (pre : List Event),
      coveredFrom pre (twapLoop V G symbol side q n i) = true := by
  intro n
  induction n with
  | zero => intro i pre; rfl
  | succ n ih =>
    intro i pre
    cases hV : V symbol q none with
    | false => simp [twapLoop, hV, coveredFrom]
    | true => simp [twapLoop, hV, coveredFrom, coversIntent, marketIntent, ih]

theorem coveredFrom_gridLoop (V : Validator) (G : Gateway) (symbol : String)
    (lb ub step qpl : ℚ) :
    ∀ (n i : ℕ) (pre : List Event),
      coveredFrom pre (gridLoop V G symbol lb ub step qpl n i) = true := by
  intro n
  induction n with
  | zero => intro i pre; rfl
  | succ n ih =>
    intro i pre
    cases hV : V symbol qpl (some (gridPrice lb step i)) with
    | false => simp [gridLoop, hV, coveredFrom]
    | true => simp [gridLoop, hV, coveredFrom, coversIntent, gridIntent, ih]

theorem gatewayCovered_market (V : Validator) (G : Gateway) (symbol : String)
    (side : Side) (quantity : ℚ) :
    gatewayCovered (place_market_order V G symbol side quantity) = true := by
  cases hV : V symbol quantity none with
  | false => simp [place_market_order, hV, gatewayCovered, coveredFrom]
  | true =>
    simp [place_market_order, hV, gatewayCovered, coveredFrom, coversIntent,
      marketIntent]

theorem gatewayCovered_limit (V : Validator) (G : Gateway) (symbol : String)
    (side : Side) (quantity price : ℚ) (tif : String) :
    gatewayCovered (place_limit_order V G symbol side quantity price tif) = true := by
  cases hV : V symbol quantity (some price) with
  | false => simp [place_limit_order, hV, gatewayCovered, coveredFrom]
  | true => simp [place_limit_order, hV, gatewayCovered, coveredFrom, coversIntent]

theorem gatewayCovered_stop_limit (V : Validator) (G : Gateway)
    (symbol : String) (side : Side) (quantity stop_price limit_price : ℚ) :
    gatewayCovered
      (place_stop_limit_order V G symbol side quantity stop_price limit_price) =
      true := by
  cases hV : V symbol quantity (some limit_price) with
  | false => simp [place_stop_limit_order, hV, gatewayCovered, coveredFrom]
  | true =>
    simp [place_stop_limit_order, hV, gatewayCovered, coveredFrom, coversIntent]

theorem gatewayCovered_oco (V : Validator) (G : Gateway) (symbol : String)
    (side : Side) (quantity take_profit stop_loss : ℚ) :
    gatewayCovered (place_oco_order V G symbol side quantity take_profit stop_loss) =
      true := by
  cases hV1 : V symbol quantity (some take_profit) with
  | false => simp [place_oco_order, hV1, gatewayCovered, coveredFrom]
  | true =>
    cases hV2 : V symbol quantity (some stop_loss) with
    | false => simp [place_oco_order, hV1, hV2, gatewayCovered, coveredFrom]
    | true =>
      cases hG : G 0 with
      | false =>
        simp [place_oco_order, hV1, hV2, hG, gatewayCovered, coveredFrom,
          coversIntent]
      | true =>
        simp [place_oco_order, hV1, hV2, hG, gatewayCovered, coveredFrom,
          coversIntent]

theorem gatewayCovered_twap (V : Validator) (G : Gateway) (symbol : String)
    (side : Side) (total_quantity : ℚ) (duration_minutes interval_seconds : ℕ) :
    gatewayCovered
      (place_twap_order V G symbol side total_quantity duration_minutes
        interval_seconds) = true := by
  unfold place_twap_order
  by_cases h : twap_num_intervals duration_minutes interval_seconds = 0
  · simp [h, gatewayCovered, coveredFrom]
  · simp [h, gatewayCovered, coveredFrom_twapLoop]

theorem gatewayCovered_grid (V : Validator) (G : Gateway) (symbol : String)
    (lower_bound upper_bound : ℚ) (num_levels : ℕ) (quantity_per_level : ℚ) :
    gatewayCovered
      (place_grid_orders V G symbol lower_bound upper_bound num_levels
        quantity_per_level) = true := by
  unfold place_grid_orders
  by_cases h : num_levels ≤ 1
  · simp [h, gatewayCovered, coveredFrom]
  · simp [h, gatewayCovered, coveredFrom_gridLoop]

theorem gatewayEvents_twap_fail (V : Validator) (G : Gateway) (symbol : String)
    (side : Side) (total_quantity : ℚ) (duration_minutes interval_seconds : ℕ)
    (hV : V symbol
      (total_quantity / (twap_num_intervals duration_minutes interval_seconds : ℚ))
      none = false) :
    gatewayEvents
      (place_twap_order V G symbol side total_quantity duration_minutes
        interval_seconds) = [] := by
  unfold place_twap_order
  by_cases h : twap_num_intervals duration_minutes interval_seconds = 0
  · simp [h, gatewayEvents]
  · cases hn : twap_num_intervals duration_minutes interval_seconds with
    | zero => exact absurd hn h
    | succ n =>
      rw [hn] at hV
      rw [Nat.cast_succ] at hV
      simp [h, hn, twapLoop, hV, gatewayEvents]

theorem gatewayEvents_gridLoop_fail (V : Validator) (G : Gateway)
    (symbol : String) (lb ub step qpl pr : ℚ)
    (hV : V symbol qpl (some pr) = false) :
    ∀ (n i : ℕ) (o : OrderIntent),
      o ∈ gatewayEvents (gridLoop V G symbol lb ub step qpl n i) →
      o.price ≠ some pr := by
  intro n
  induction n with
  | zero => intro i o ho; simp [gridLoop, gatewayEvents] at ho
  | succ n ih =>
    intro i o ho
    by_cases hpr : gridPrice lb step i = pr
    · rw [gridLoop, hpr, hV] at ho
      simp [gatewayEvents] at ho
    · cases hVi : V symbol qpl (some (gridPrice lb step i)) with
      | false => rw [gridLoop, hVi] at ho; simp [gatewayEvents] at ho
      | true =>
        rw [gridLoop, hVi] at ho
        simp only [gatewayEvents, List.filterMap_cons] at ho
        simp only [List.mem_cons] at ho
        rcases ho with ho | ho
        · subst ho
          simp [gridIntent, hpr]
        · exact ih (i + 1) o ho

/-- C1.  Every order submitted to the exchange gateway
(`futures_create_order`) by any of the six strategies — market, limit
(spec-modelled, the module is absent from `src/`), stop-limit, simulated
bracket (OCO), TWAP and grid — is preceded, in the same invocation, by a
validator call that returned a passing result for that order's symbol and
quantity and, when the order carries a price, for that price; and when the
validator fails (symbol-lookup failure included, since `validate_input`
returns `False` for it), no gateway call is made for that order.  This
holds for every validator behaviour `V` and every gateway behaviour `G`. -/
theorem claim_C1_validator_precedes_gateway (V : Validator) (G : Gateway)
    (symbol : String) (side : Side)
    (quantity price stop_price limit_price take_profit stop_loss : ℚ)
    (tif : String) (total_quantity : ℚ) (duration_minutes interval_seconds : ℕ)
    (lower_bound upper_bound : ℚ) (num_levels : ℕ) (quantity_per_level : ℚ) :
    gatewayCovered (place_market_order V G symbol side quantity) = true ∧
    gatewayCovered (place_limit_order V G symbol side quantity price tif) = true ∧
    gatewayCovered
      (place_stop_limit_order V G symbol side quantity stop_price limit_price) =
      true ∧
    gatewayCovered
      (place_oco_order V G symbol side quantity take_profit stop_loss) = true ∧
    gatewayCovered
      (place_twap_order V G symbol side total_quantity duration_minutes
        interval_seconds) = true ∧
    gatewayCovered
      (place_grid_orders V G symbol lower_bound upper_bound num_levels
        quantity_per_level) = true ∧
    (V symbol quantity none = false →
      gatewayEvents (place_market_order V G symbol side quantity) = []) ∧
    (V symbol quantity (some price) = false →
      gatewayEvents (place_limit_order V G symbol side quantity price tif) = []) ∧
    (V symbol quantity (some limit_price) = false →
      gatewayEvents
        (place_stop_limit_order V G symbol side quantity stop_price limit_price) =
        []) ∧
    (V symbol quantity (some take_profit) = false ∨
        V symbol quantity (some stop_loss) = false →
      gatewayEvents
        (place_oco_order V G symbol side quantity take_profit stop_loss) = []) ∧
    (V symbol
        (total_quantity /
          (twap_num_intervals duration_minutes interval_seconds : ℚ)) none =
        false →
      gatewayEvents
        (place_twap_order V G symbol side total_quantity duration_minutes
          interval_seconds) = []) ∧
    (∀ i : ℕ,
      V symbol quantity_per_level
          (some (gridPrice lower_bound
            (grid_price_step lower_bound upper_bound num_levels) i)) = false →
      ∀ o ∈ gatewayEvents
          (place_grid_orders V G symbol lower_bound upper_bound num_levels
            quantity_per_level),
        o.price ≠ some (gridPrice lower_bound
          (grid_price_step lower_bound upper_bound num_levels) i)) := by
  refine ⟨gatewayCovered_market V G symbol side quantity,
    gatewayCovered_limit V G symbol side quantity price tif,
    gatewayCovered_stop_limit V G symbol side quantity stop_price limit_price,
    gatewayCovered_oco V G symbol side quantity take_profit stop_loss,
    gatewayCovered_twap V G symbol side total_quantity duration_minutes
      interval_seconds,
    gatewayCovered_grid V G symbol lower_bound upper_bound num_levels
      quantity_per_level, ?_, ?_, ?_, ?_, ?_, ?_⟩
  · intro hV; simp [place_market_order, hV, gatewayEvents]
  · intro hV; simp [place_limit_order, hV, gatewayEvents]
  · intro hV; simp [place_stop_limit_order, hV, gatewayEvents]
  · intro hV
    rcases hV with hV | hV
    · simp [place_oco_order, hV, gatewayEvents]
    · cases hV1 : V symbol quantity (some take_profit) with
      | false => simp [place_oco_order, hV1, gatewayEvents]
      | true => simp [place_oco_order, hV1, hV, gatewayEvents]
  · intro hV
    exact gatewayEvents_twap_fail V G symbol side total_quantity
      duration_minutes interval_seconds hV
  · intro i hV o ho
    unfold place_grid_orders at ho
    by_cases h : num_levels ≤ 1
    · simp [h, gatewayEvents] at ho
    · rw [if_neg h] at ho
      exact gatewayEvents_gridLoop_fail V G symbol lower_bound upper_bound
        (grid_price_step lower_bound upper_bound num_levels)
        quantity_per_level
        (gridPrice lower_bound
          (grid_price_step lower_bound upper_bound num_levels) i) hV
        num_levels 0 o ho

theorem pymod_eq_zero_iff (x y : ℚ) (hy : y ≠ 0) :
    pymod x y = 0 ↔ ∃ k : ℤ, x = k * y := by
  rw [pymod_def]
  constructor
  · intro h
    refine ⟨⌊x / y⌋, ?_⟩
    linarith
  · rintro ⟨k, rfl⟩
    have hky : (k : ℚ) * y / y = (k : ℚ) := by
      field_simp
    rw [hky, Int.floor_intCast]
    ring

theorem gatewayEvents_nil : gatewayEvents [] = [] := rfl

theorem gatewayEvents_validate_cons (s : String) (q : ℚ) (p : Option ℚ)
    (r : Bool) (t : List Event) :
    gatewayEvents (Event.validate s q p r :: t) = gatewayEvents t := rfl

theorem gatewayEvents_gateway_cons (o : OrderIntent) (ok : Bool)
    (t : List Event) :
    gatewayEvents (Event.gateway o ok :: t) = o :: gatewayEvents t := rfl

theorem gatewayEvents_twapLoop (V : Validator) (G : Gateway) (symbol : String)
    (side : Side) (q : ℚ) (hV : V symbol q none = true) :
    ∀ n i, gatewayEvents (twapLoop V G symbol side q n i) =
      List.replicate n (marketIntent symbol side q) := by
  intro n
  induction n with
  | zero => intro i; rfl
  | succ n ih =>
    intro i
    rw [twapLoop, hV, gatewayEvents_validate_cons, gatewayEvents_gateway_cons,
      ih (i + 1), List.replicate_succ]

theorem gatewayEvents_gridLoop (V : Validator) (G : Gateway) (symbol : String)
    (lb ub step qpl : ℚ) (hV : ∀ p, V symbol qpl (some p) = true) :
    ∀ n i, gatewayEvents (gridLoop V G symbol lb ub step qpl n i) =
      (List.range n).map (fun j => gridIntent symbol lb ub step qpl (i + j)) := by
  intro n
  induction n with
  | zero => intro i; rfl
  | succ n ih =>
    intro i
    rw [gridLoop, hV (gridPrice lb step i), gatewayEvents_validate_cons,
      gatewayEvents_gateway_cons, ih (i + 1), List.range_succ_eq_map,
      List.map_cons, List.map_map]
    have harg : (fun j => gridIntent symbol lb ub step qpl (i + 1 + j)) =
        ((fun j => gridIntent symbol lb ub step qpl (i + j)) ∘ Nat.succ) := by
      funext j
      simp only [Function.comp]
      congr 1
      omega
    rw [harg]
    rfl

/-- Witness for C1 at concrete inputs: with an always-passing validator the
market-order trace is covered, and with an always-failing validator no
gateway call is made. -/
theorem claim_C1_validator_precedes_gateway_witness :
    gatewayCovered
      (place_market_order (fun _ _ _ => true) (fun _ => true) "BTCUSDT"
        Side.BUY 1) = true ∧
    gatewayEvents
      (place_market_order (fun _ _ _ => false) (fun _ => true) "BTCUSDT"
        Side.BUY 1) = [] := by
  constructor
  · exact (claim_C1_validator_precedes_gateway (fun _ _ _ => true)
      (fun _ => true) "BTCUSDT" Side.BUY 1 1 1 1 1 1 "GTC" 1 5 60 100 200 3 1).1
  · exact (claim_C1_validator_precedes_gateway (fun _ _ _ => false)
      (fun _ => true) "BTCUSDT" Side.BUY 1 1 1 1 1 1 "GTC" 1 5 60 100 200 3
      1).2.2.2.2.2.2.1 rfl

/-- Counterexample to C2 as stated: with both validations passing, a gateway
that raises on the first (take-profit) call and would succeed on the second,
the simulated bracket strategy submits only the take-profit order — the
stop-loss order is never submitted, and the outcome is a single failure, not
one failure plus one success. -/
theorem claim_C2_counterexample :
    place_oco_order (fun _ _ _ => true) (fun i => decide (0 < i)) "BTCUSDT"
        Side.BUY 1 110 90 =
      [Event.validate "BTCUSDT" 1 (some 110) true,
       Event.validate "BTCUSDT" 1 (some 90) true,
       Event.gateway
         { symbol := "BTCUSDT", side := Side.SELL,
           type := OrderType.TAKE_PROFIT, quantity := 1, price := none,
           stopPrice := some 110, timeInForce := none } false] ∧
    gatewayEvents
      (place_oco_order (fun _ _ _ => true) (fun i => decide (0 < i)) "BTCUSDT"
        Side.BUY 1 110 90) =
      [{ symbol := "BTCUSDT", side := Side.SELL, type := OrderType.TAKE_PROFIT,
         quantity := 1, price := none, stopPrice := some 110,
         timeInForce := none }] := by
  constructor <;> rfl

/-- C2 as amended: both validations are checked up front, but the two legs
are not independent — if the take-profit submission raises, the error is
handled and the strategy returns without attempting the stop-loss order;
the stop-loss order is submitted exactly when the take-profit submission
succeeded. -/
theorem claim_C2_amended_tp_failure_aborts (V : Validator) (G : Gateway)
    (symbol : String) (side : Side) (quantity take_profit stop_loss : ℚ)
    (hV1 : V symbol quantity (some take_profit) = true)
    (hV2 : V symbol quantity (some stop_loss) = true) :
    (G 0 = false →
      place_oco_order V G symbol side quantity take_profit stop_loss =
        [Event.validate symbol quantity (some take_profit) true,
         Event.validate symbol quantity (some stop_loss) true,
         Event.gateway
           { symbol := symbol, side := oppositeSide side,
             type := OrderType.TAKE_PROFIT, quantity := quantity,
             price := none, stopPrice := some take_profit,
             timeInForce := none } false]) ∧
    (G 0 = true →
      place_oco_order V G symbol side quantity take_profit stop_loss =
        [Event.validate symbol quantity (some take_profit) true,
         Event.validate symbol quantity (some stop_loss) true,
         Event.gateway
           { symbol := symbol, side := oppositeSide side,
             type := OrderType.TAKE_PROFIT, quantity := quantity,
             price := none, stopPrice := some take_profit,
             timeInForce := none } true,
         Event.gateway
           { symbol := symbol, side := oppositeSide side,
             type := OrderType.STOP, quantity := quantity, price := none,
             stopPrice := some stop_loss, timeInForce := none } (G 1)]) := by
  constructor <;> intro hG <;> simp [place_oco_order, hV1, hV2, hG]

/-- Witness for the amended C2 at concrete inputs. -/
theorem claim_C2_amended_tp_failure_aborts_witness :
    place_oco_order (fun _ _ _ => true) (fun _ => false) "BTCUSDT" Side.BUY 1
        110 90 =
      [Event.validate "BTCUSDT" 1 (some 110) true,
       Event.validate "BTCUSDT" 1 (some 90) true,
       Event.gateway
         { symbol := "BTCUSDT", side := Side.SELL,
           type := OrderType.TAKE_PROFIT, quantity := 1, price := none,
           stopPrice := some 110, timeInForce := none } false] :=
  (claim_C2_amended_tp_failure_aborts (fun _ _ _ => true) (fun _ => false)
    "BTCUSDT" Side.BUY 1 110 90 rfl rfl).1 rfl

/-- Counterexample to C3 as stated: a validation failure on one sub-order
aborts the whole strategy instead of continuing.  Grid (levels 100, 150,
200): a validator failing only at price 100 stops the strategy at level 0 —
levels 1 and 2 are never attempted (one event in the whole trace).  TWAP
(5 intervals): a failing validator stops the strategy at interval 0 — the
remaining 4 intervals are never attempted. -/
theorem claim_C3_counterexample :
    place_grid_orders (fun _ _ p => decide (p ≠ some (100 : ℚ)))
        (fun _ => true) "BTCUSDT" 100 200 3 1 =
      [Event.validate "BTCUSDT" 1 (some 100) false] ∧
    place_twap_order (fun _ _ _ => false) (fun _ => true) "BTCUSDT" Side.BUY
        10 5 60 =
      [Event.validate "BTCUSDT" (10 / ((5 : ℕ) : ℚ)) none false] := by
  constructor
  · have hstep : gridPrice 100 (grid_price_step 100 200 3) 0 = 100 := by
      norm_num [gridPrice, grid_price_step]
    rw [place_grid_orders, if_neg (by norm_num), gridLoop, hstep]
    simp
  · rfl

theorem twapLoop_fail (V : Validator) (G : Gateway) (symbol : String)
    (side : Side) (q : ℚ) (hV : V symbol q none = false) :
    ∀ n i, n ≠ 0 →
      twapLoop V G symbol side q n i = [Event.validate symbol q none false] := by
  intro n i hn
  cases n with
  | zero => exact absurd rfl hn
  | succ n => rw [twapLoop, hV]

theorem gridLoop_fail (V : Validator) (G : Gateway) (symbol : String)
    (lb ub step qpl : ℚ)
    (i : ℕ) (hV : V symbol qpl (some (gridPrice lb step i)) = false) :
    ∀ n, n ≠ 0 →
      gridLoop V G symbol lb ub step qpl n i =
        [Event.validate symbol qpl (some (gridPrice lb step i)) false] := by
  intro n hn
  cases n with
  | zero => exact absurd rfl hn
  | succ n => rw [gridLoop, hV]

/-- C3 as amended: a sub-order SUBMISSION (gateway) failure is logged and
the multi-order strategy continues — with validation passing, all planned
sub-orders are attempted for every gateway behaviour, failures included —
but a sub-order VALIDATION failure aborts the remainder of the strategy:
both TWAP and grid return at the first failed validation (grid logs
`Aborting grid placement.`, TWAP logs `Aborting.`). -/
theorem claim_C3_amended_submission_continues_validation_aborts
    (V : Validator) (G : Gateway) (symbol : String) (side : Side)
    (total_quantity lower_bound upper_bound quantity_per_level : ℚ)
    (duration_minutes interval_seconds num_levels : ℕ) :
    (V symbol
        (total_quantity /
          ((twap_num_intervals duration_minutes interval_seconds : ℕ) : ℚ))
        none = true →
      (gatewayEvents
        (place_twap_order V G symbol side total_quantity duration_minutes
          interval_seconds)).length =
        twap_num_intervals duration_minutes interval_seconds) ∧
    ((∀ p, V symbol quantity_per_level (some p) = true) →
      (gatewayEvents
        (place_grid_orders V G symbol lower_bound upper_bound num_levels
          quantity_per_level)).length =
        if num_levels ≤ 1 then 0 else num_levels) ∧
    (V symbol
        (total_quantity /
          ((twap_num_intervals duration_minutes interval_seconds : ℕ) : ℚ))
        none = false →
      twap_num_intervals duration_minutes interval_seconds ≠ 0 →
      place_twap_order V G symbol side total_quantity duration_minutes
          interval_seconds =
        [Event.validate symbol
          (total_quantity /
            ((twap_num_intervals duration_minutes interval_seconds : ℕ) : ℚ))
          none false]) ∧
    (V symbol quantity_per_level
        (some (gridPrice lower_bound
          (grid_price_step lower_bound upper_bound num_levels) 0)) = false →
      1 < num_levels →
      place_grid_orders V G symbol lower_bound upper_bound num_levels
          quantity_per_level =
        [Event.validate symbol quantity_per_level
          (some (gridPrice lower_bound
            (grid_price_step lower_bound upper_bound num_levels) 0)) false]) := by
  refine ⟨?_, ?_, ?_, ?_⟩
  · intro hV
    unfold place_twap_order
    by_cases h : twap_num_intervals duration_minutes interval_seconds = 0
    · simp [h, gatewayEvents_nil]
    · rw [if_neg h,
        gatewayEvents_twapLoop V G symbol side _ hV
          (twap_num_intervals duration_minutes interval_seconds) 0,
        List.length_replicate]
  · intro hV
    unfold place_grid_orders
    by_cases h : num_levels ≤ 1
    · simp [h, gatewayEvents_nil]
    · rw [if_neg h, if_neg h,
        gatewayEvents_gridLoop V G symbol lower_bound upper_bound
          (grid_price_step lower_bound upper_bound num_levels)
          quantity_per_level hV num_levels 0,
        List.length_map, List.length_range]
  · intro hV hn
    unfold place_twap_order
    rw [if_neg hn]
    exact twapLoop_fail V G symbol side _ hV _ 0 hn
  · intro hV h1
    unfold place_grid_orders
    rw [if_neg (by omega)]
    exact gridLoop_fail V G symbol lower_bound upper_bound
      (grid_price_step lower_bound upper_bound num_levels)
      quantity_per_level 0 hV num_levels (by omega)

/-- Witness for the amended C3 at concrete inputs: with passing validation
and a gateway that raises on every call, TWAP still attempts all 5
sub-orders. -/
theorem claim_C3_amended_witness :
    (gatewayEvents
      (place_twap_order (fun _ _ _ => true) (fun _ => false) "BTCUSDT"
        Side.BUY 10 5 60)).length = 5 := by
  have h := (claim_C3_amended_submission_continues_validation_aborts
    (fun _ _ _ => true) (fun _ => false) "BTCUSDT" Side.BUY 10 100 200 1 5 60
    3).1 rfl
  exact h

theorem validate_input_logged_lookup (s : CacheState) (symbol sym0 : String)
    (pf : PriceFilter) (lsf : LotSizeFilter) (q : ℚ) (price : Option ℚ)
    (hlookup : get_symbol_info s symbol =
      some { symbol := sym0, price_filter := some pf,
             lot_size_filter := some lsf }) :
    validate_input_logged s symbol q price =
      if q < lsf.minQty ∨ q > lsf.maxQty then
        (false, [ValidationLog.quantityOutOfRange])
      else if pymod (q - lsf.minQty) lsf.stepSize ≠ 0 then
        (false, [ValidationLog.quantityStepMismatch])
      else
        match price with
        | none => (true, [])
        | some p =>
          if p = 0 then (true, [])
          else if p < pf.minPrice ∨ p > pf.maxPrice then
            (false, [ValidationLog.priceOutOfRange])
          else if pymod (p - pf.minPrice) pf.tickSize ≠ 0 then
            (false, [ValidationLog.priceTickMismatch])
          else (true, []) := by
  unfold validate_input_logged
  rw [hlookup]

theorem range_not_violated_iff {a b x : ℚ} :
    ¬(x < a ∨ x > b) ↔ a ≤ x ∧ x ≤ b := by
  rw [not_or, not_lt, not_lt]

/-- The boolean result of `validate_input`, characterised over the filters
a successful lookup returns (code-level conditions). -/
theorem validate_input_true_iff (s : CacheState) (symbol sym0 : String)
    (pf : PriceFilter) (lsf : LotSizeFilter) (q : ℚ) (price : Option ℚ)
    (hlookup : get_symbol_info s symbol =
      some { symbol := sym0, price_filter := some pf,
             lot_size_filter := some lsf }) :
    validate_input s symbol q price = true ↔
      ((lsf.minQty ≤ q ∧ q ≤ lsf.maxQty) ∧
        pymod (q - lsf.minQty) lsf.stepSize = 0 ∧
        match price with
        | none => True
        | some p =>
            p = 0 ∨ ((pf.minPrice ≤ p ∧ p ≤ pf.maxPrice) ∧
              pymod (p - pf.minPrice) pf.tickSize = 0)) := by
  rw [validate_input,
    validate_input_logged_lookup s symbol sym0 pf lsf q price hlookup]
  by_cases hq : q < lsf.minQty ∨ q > lsf.maxQty
  · rw [if_pos hq]
    refine iff_of_false (by simp) ?_
    rintro ⟨h1, -⟩
    exact range_not_violated_iff.mpr h1 hq
  · rw [if_neg hq]
    by_cases hs : pymod (q - lsf.minQty) lsf.stepSize = 0
    · rw [if_neg (fun hne => hne hs)]
      cases price with
      | none => exact iff_of_true rfl ⟨range_not_violated_iff.mp hq, hs, trivial⟩
      | some p =>
        dsimp only
        by_cases hp0 : p = 0
        · rw [if_pos hp0]
          exact iff_of_true rfl
            ⟨range_not_violated_iff.mp hq, hs, Or.inl hp0⟩
        · rw [if_neg hp0]
          by_cases hpr : p < pf.minPrice ∨ p > pf.maxPrice
          · rw [if_pos hpr]
            refine iff_of_false (by simp) ?_
            rintro ⟨-, -, h | ⟨h1, -⟩⟩
            · exact hp0 h
            · exact range_not_violated_iff.mpr h1 hpr
          · rw [if_neg hpr]
            by_cases ht : pymod (p - pf.minPrice) pf.tickSize = 0
            · rw [if_neg (fun hne => hne ht)]
              exact iff_of_true rfl
                ⟨range_not_violated_iff.mp hq, hs,
                 Or.inr ⟨range_not_violated_iff.mp hpr, ht⟩⟩
            · rw [if_pos ht]
              refine iff_of_false (by simp) ?_
              rintro ⟨-, -, h | ⟨-, h2⟩⟩
              · exact hp0 h
              · exact ht h2
    · rw [if_pos hs]
      refine iff_of_false (by simp) ?_
      rintro ⟨-, h2, -⟩
      exact hs h2

/-- Counterexample to C4 as stated: with the repository's own test filters
(minPrice 0.01), a zero price is treated as an absent price by the `if
price:` truthiness test, so `validate` returns Ok although the price `0`
does not lie within `[minPrice, maxPrice]` — the stated iff fails. -/
theorem claim_C4_counterexample :
    validate_input testCache "BTCUSDT" (2/1000) (some 0) = true ∧
    get_symbol_info testCache "BTCUSDT" =
      some { symbol := "BTCUSDT",
             price_filter :=
               some { minPrice := 1/100, maxPrice := 100000, tickSize := 1/100 },
             lot_size_filter :=
               some { minQty := 1/1000, maxQty := 1000, stepSize := 1/1000 } } ∧
    ¬((1/100 : ℚ) ≤ 0) := by
  refine ⟨?_, rfl, by norm_num⟩
  norm_num [validate_input, validate_input_logged, get_symbol_info, testCache,
    testInfoList, pymod_def]

/-- C4 as amended: for filters with positive `stepSize` and `tickSize`,
`validate` returns Ok exactly when the quantity lies within
`[minQty, maxQty]`, `quantity - minQty` is an integer multiple of
`stepSize`, and, when a NONZERO price is present, the price lies within
`[minPrice, maxPrice]` and `price - minPrice` is an integer multiple of
`tickSize` (a zero price is treated as absent by the source's truthiness
test); the five checks run in source order and short-circuit: the single
logged error is that of the first failing check. -/
theorem claim_C4_amended_validate_ok_iff (s : CacheState)
    (symbol sym0 : String) (pf : PriceFilter) (lsf : LotSizeFilter) (q : ℚ)
    (price : Option ℚ)
    (hlookup : get_symbol_info s symbol =
      some { symbol := sym0, price_filter := some pf,
             lot_size_filter := some lsf })
    (hstep : 0 < lsf.stepSize) (htick : 0 < pf.tickSize) :
    (validate_input s symbol q price = true ↔
      (lsf.minQty ≤ q ∧ q ≤ lsf.maxQty ∧
        (∃ k : ℤ, q - lsf.minQty = k * lsf.stepSize) ∧
        ∀ p, price = some p → p ≠ 0 →
          pf.minPrice ≤ p ∧ p ≤ pf.maxPrice ∧
          ∃ k : ℤ, p - pf.minPrice = k * pf.tickSize)) ∧
    ((q < lsf.minQty ∨ lsf.maxQty < q) →
      validate_input_logged s symbol q price =
        (false, [ValidationLog.quantityOutOfRange])) ∧
    (lsf.minQty ≤ q → q ≤ lsf.maxQty →
      pymod (q - lsf.minQty) lsf.stepSize ≠ 0 →
      validate_input_logged s symbol q price =
        (false, [ValidationLog.quantityStepMismatch])) ∧
    (∀ p, price = some p → p ≠ 0 →
      lsf.minQty ≤ q → q ≤ lsf.maxQty →
      pymod (q - lsf.minQty) lsf.stepSize = 0 →
      (p < pf.minPrice ∨ pf.maxPrice < p) →
      validate_input_logged s symbol q price =
        (false, [ValidationLog.priceOutOfRange])) ∧
    (∀ p, price = some p → p ≠ 0 →
      lsf.minQty ≤ q → q ≤ lsf.maxQty →
      pymod (q - lsf.minQty) lsf.stepSize = 0 →
      pf.minPrice ≤ p → p ≤ pf.maxPrice →
      pymod (p - pf.minPrice) pf.tickSize ≠ 0 →
      validate_input_logged s symbol q price =
        (false, [ValidationLog.priceTickMismatch])) := by
  have hbase := validate_input_logged_lookup s symbol sym0 pf lsf q price hlookup
  refine ⟨?_, ?_, ?_, ?_, ?_⟩
  · rw [validate_input_true_iff s symbol sym0 pf lsf q price hlookup]
    cases price with
    | none =>
      constructor
      · rintro ⟨⟨h1, h2⟩, hs, -⟩
        exact ⟨h1, h2, (pymod_eq_zero_iff _ _ (ne_of_gt hstep)).mp hs,
          fun p hp => absurd hp (by simp)⟩
      · rintro ⟨h1, h2, ⟨k, hk⟩, -⟩
        exact ⟨⟨h1, h2⟩, (pymod_eq_zero_iff _ _ (ne_of_gt hstep)).mpr ⟨k, hk⟩,
          trivial⟩
    | some p =>
      dsimp only
      constructor
      · rintro ⟨⟨h1, h2⟩, hs, hp⟩
        refine ⟨h1, h2, (pymod_eq_zero_iff _ _ (ne_of_gt hstep)).mp hs, ?_⟩
        rintro p' hp' hp0
        obtain rfl := Option.some.inj hp'
        rcases hp with h0 | ⟨⟨hm1, hm2⟩, htk⟩
        · exact absurd h0 hp0
        · exact ⟨hm1, hm2, (pymod_eq_zero_iff _ _ (ne_of_gt htick)).mp htk⟩
      · rintro ⟨h1, h2, ⟨k, hk⟩, hp⟩
        refine ⟨⟨h1, h2⟩,
          (pymod_eq_zero_iff _ _ (ne_of_gt hstep)).mpr ⟨k, hk⟩, ?_⟩
        by_cases hp0 : p = 0
        · exact Or.inl hp0
        · obtain ⟨hm1, hm2, k2, hk2⟩ := hp p rfl hp0
          exact Or.inr ⟨⟨hm1, hm2⟩,
            (pymod_eq_zero_iff _ _ (ne_of_gt htick)).mpr ⟨k2, hk2⟩⟩
  · intro hq
    rw [hbase, if_pos hq]
  · intro h1 h2 hs
    rw [hbase, if_neg (range_not_violated_iff.mpr ⟨h1, h2⟩), if_pos hs]
  · rintro p rfl hp0 h1 h2 hqs hpr
    rw [hbase, if_neg (range_not_violated_iff.mpr ⟨h1, h2⟩),
      if_neg (fun hne => hne hqs)]
    dsimp only
    rw [if_neg hp0, if_pos hpr]
  · rintro p rfl hp0 h1 h2 hqs hm1 hm2 htk
    rw [hbase, if_neg (range_not_violated_iff.mpr ⟨h1, h2⟩),
      if_neg (fun hne => hne hqs)]
    dsimp only
    rw [if_neg hp0, if_neg (range_not_violated_iff.mpr ⟨hm1, hm2⟩),
      if_pos htk]

/-- Witness for the amended C4 at concrete inputs: the repository's own
test case `test_invalid_quantity_below_min` (quantity 0.0005, minQty
0.001). -/
theorem claim_C4_amended_witness :
    validate_input_logged testCache "BTCUSDT" (5/10000) none =
      (false, [ValidationLog.quantityOutOfRange]) := by
  have h := (claim_C4_amended_validate_ok_iff testCache "BTCUSDT" "BTCUSDT"
    { minPrice := 1/100, maxPrice := 100000, tickSize := 1/100 }
    { minQty := 1/1000, maxQty := 1000, stepSize := 1/1000 }
    (5/10000) none rfl (by norm_num) (by norm_num)).2.1
  exact h (Or.inl (by norm_num))

/-- Counterexample to C5 as stated: the return value of `validate_input` is
the generic boolean `False` for every failure, so two inputs violating two
DIFFERENT single conditions (unknown symbol XYZUSDT; quantity 2000 above
maxQty 1000) produce identical, undistinguished return values. -/
theorem claim_C5_counterexample :
    validate_input testCache "XYZUSDT" (2/1000) none =
      validate_input testCache "BTCUSDT" 2000 none ∧
    validate_input testCache "XYZUSDT" (2/1000) none = false := by
  have h1 : validate_input testCache "XYZUSDT" (2/1000) none = false := by
    have h : get_symbol_info testCache "XYZUSDT" = none := rfl
    norm_num [validate_input, validate_input_logged, h]
  have h2 : validate_input testCache "BTCUSDT" 2000 none = false := by
    norm_num [validate_input, validate_input_logged, get_symbol_info,
      testCache, testInfoList, pymod_def]
  exact ⟨h1.trans h2.symm, h1⟩

/-- C5 as amended: the return value is a generic boolean, but the failure
reason is specific in the LOGGED error: for every input whose first (and in
particular only) violated condition is the unknown symbol, the quantity
range, the quantity step, the price range or the price tick, the single
logged message is the one specific to that condition. -/
theorem claim_C5_amended_specific_logged_reason (s : CacheState)
    (symbol : String) (q : ℚ) (price : Option ℚ) :
    (get_symbol_info s symbol = none →
      validate_input_logged s symbol q price =
        (false, [ValidationLog.invalidSymbol])) ∧
    (∀ (sym0 : String) (pf : PriceFilter) (lsf : LotSizeFilter),
      get_symbol_info s symbol =
        some { symbol := sym0, price_filter := some pf,
               lot_size_filter := some lsf } →
      ((q < lsf.minQty ∨ lsf.maxQty < q) →
        validate_input_logged s symbol q price =
          (false, [ValidationLog.quantityOutOfRange])) ∧
      (lsf.minQty ≤ q → q ≤ lsf.maxQty →
        pymod (q - lsf.minQty) lsf.stepSize ≠ 0 →
        validate_input_logged s symbol q price =
          (false, [ValidationLog.quantityStepMismatch])) ∧
      (∀ p, price = some p → p ≠ 0 →
        lsf.minQty ≤ q → q ≤ lsf.maxQty →
        pymod (q - lsf.minQty) lsf.stepSize = 0 →
        (p < pf.minPrice ∨ pf.maxPrice < p) →
        validate_input_logged s symbol q price =
          (false, [ValidationLog.priceOutOfRange])) ∧
      (∀ p, price = some p → p ≠ 0 →
        lsf.minQty ≤ q → q ≤ lsf.maxQty →
        pymod (q - lsf.minQty) lsf.stepSize = 0 →
        pf.minPrice ≤ p → p ≤ pf.maxPrice →
        pymod (p - pf.minPrice) pf.tickSize ≠ 0 →
        validate_input_logged s symbol q price =
          (false, [ValidationLog.priceTickMismatch]))) := by
  constructor
  · intro hnone
    unfold validate_input_logged
    rw [hnone]
  · intro sym0 pf lsf hlookup
    have hbase :=
      validate_input_logged_lookup s symbol sym0 pf lsf q price hlookup
    refine ⟨?_, ?_, ?_, ?_⟩
    · intro hq
      rw [hbase, if_pos hq]
    · intro h1 h2 hs
      rw [hbase, if_neg (range_not_violated_iff.mpr ⟨h1, h2⟩), if_pos hs]
    · rintro p rfl hp0 h1 h2 hqs hpr
      rw [hbase, if_neg (range_not_violated_iff.mpr ⟨h1, h2⟩),
        if_neg (fun hne => hne hqs)]
      dsimp only
      rw [if_neg hp0, if_pos hpr]
    · rintro p rfl hp0 h1 h2 hqs hm1 hm2 htk
      rw [hbase, if_neg (range_not_violated_iff.mpr ⟨h1, h2⟩),
        if_neg (fun hne => hne hqs)]
      dsimp only
      rw [if_neg hp0, if_neg (range_not_violated_iff.mpr ⟨hm1, hm2⟩),
        if_pos htk]

/-- Witness for the amended C5: unknown symbol logs `invalidSymbol`; the
repository's own test case `test_invalid_quantity_step` (quantity 0.0025,
stepSize 0.001) logs `quantityStepMismatch`. -/
theorem claim_C5_amended_witness :
    validate_input_logged testCache "XYZUSDT" 1 none =
      (false, [ValidationLog.invalidSymbol]) ∧
    validate_input_logged testCache "BTCUSDT" (25/10000) none =
      (false, [ValidationLog.quantityStepMismatch]) := by
  constructor
  · exact (claim_C5_amended_specific_logged_reason testCache "XYZUSDT" 1
      none).1 rfl
  · exact (((claim_C5_amended_specific_logged_reason testCache "BTCUSDT"
      (25/10000) none).2 "BTCUSDT"
      { minPrice := 1/100, maxPrice := 100000, tickSize := 1/100 }
      { minQty := 1/1000, maxQty := 1000, stepSize := 1/1000 } rfl).2.1
      (by norm_num) (by norm_num) (by norm_num [pymod_def]))

/-- C6, settled against the code: the source computes the step check with
binary64 floats (`float(...)` conversions and float `%`), not exact
decimals.  At quantity 0.3 with minQty = stepSize = 0.1: (i) the float
subtraction is exact (the difference is representable, numerator below
2^53); (ii) the float remainder — computed here exactly over the binary64
values — is nonzero (it is 0.09999999999999998), so (iii) the float code
rejects the quantity; while (iv) under the exact decimal arithmetic the
claim and spec require, the remainder is 0 and the same quantity passes.
So the code has a false negative exactly where the claim says none can
occur. -/
theorem claim_C6_float_step_check :
    float64_of_0_3 - float64_of_0_1 = 7205759403792793 / 2 ^ 55 ∧
    (7205759403792793 : ℤ) < 2 ^ 53 ∧
    pymod (float64_of_0_3 - float64_of_0_1) float64_of_0_1 ≠ 0 ∧
    validate_input floatStepCache "BTCUSDT" float64_of_0_3 none = false ∧
    pymod ((3 : ℚ)/10 - 1/10) (1/10) = 0 ∧
    validate_input decimalStepCache "BTCUSDT" (3/10) none = true := by
  have hfloor : ⌊((float64_of_0_3 - float64_of_0_1) / float64_of_0_1 : ℚ)⌋ = 1 := by
    rw [Int.floor_eq_iff]
    constructor
    · norm_num [float64_of_0_1, float64_of_0_3]
    · norm_num [float64_of_0_1, float64_of_0_3]
  have hrem : pymod (float64_of_0_3 - float64_of_0_1) float64_of_0_1 =
      3602879701896396 / 2 ^ 55 := by
    rw [pymod_def, hfloor]
    norm_num [float64_of_0_1, float64_of_0_3]
  refine ⟨by norm_num [float64_of_0_1, float64_of_0_3], by norm_num, ?_, ?_, ?_, ?_⟩
  · rw [hrem]
    norm_num
  · have hbase := validate_input_logged_lookup floatStepCache "BTCUSDT"
      "BTCUSDT" { minPrice := 1/100, maxPrice := 100000, tickSize := 1/100 }
      { minQty := float64_of_0_1, maxQty := 100, stepSize := float64_of_0_1 }
      float64_of_0_3 none rfl
    rw [validate_input, hbase]
    rw [if_neg (range_not_violated_iff.mpr
      ⟨by norm_num [float64_of_0_1, float64_of_0_3],
       by norm_num [float64_of_0_1, float64_of_0_3]⟩)]
    rw [if_pos (by rw [hrem]; norm_num)]
  · norm_num [pymod_def]
  · have hbase := validate_input_logged_lookup decimalStepCache "BTCUSDT"
      "BTCUSDT" { minPrice := 1/100, maxPrice := 100000, tickSize := 1/100 }
      { minQty := 1/10, maxQty := 100, stepSize := 1/10 }
      (3/10) none rfl
    rw [validate_input, hbase]
    rw [if_neg (range_not_violated_iff.mpr ⟨by norm_num, by norm_num⟩)]
    rw [if_neg (fun hne => hne (by norm_num [pymod_def]))]

/-- C7.  TWAP computes `num_intervals = (duration_minutes * 60) //
interval_seconds` and, when it is nonzero and validation passes, submits
exactly `num_intervals` market orders of `total_quantity / num_intervals`
each (for every gateway behaviour); when it is zero the strategy aborts
with no validator or gateway calls at all.  Concretely
`twap_num_intervals 5 60 = 5` and `twap_num_intervals 1 120 = 0`. -/
theorem claim_C7_twap_decomposition (V : Validator) (G : Gateway)
    (symbol : String) (side : Side) (total_quantity : ℚ)
    (duration_minutes interval_seconds : ℕ) :
    twap_num_intervals 5 60 = 5 ∧
    twap_num_intervals 1 120 = 0 ∧
    (twap_num_intervals duration_minutes interval_seconds = 0 →
      place_twap_order V G symbol side total_quantity duration_minutes
        interval_seconds = []) ∧
    (V symbol
        (total_quantity /
          ((twap_num_intervals duration_minutes interval_seconds : ℕ) : ℚ))
        none = true →
      gatewayEvents
        (place_twap_order V G symbol side total_quantity duration_minutes
          interval_seconds) =
        List.replicate (twap_num_intervals duration_minutes interval_seconds)
          (marketIntent symbol side
            (total_quantity /
              ((twap_num_intervals duration_minutes interval_seconds : ℕ) :
                ℚ)))) := by
  refine ⟨rfl, rfl, ?_, ?_⟩
  · intro h
    unfold place_twap_order
    rw [if_pos h]
  · intro hV
    unfold place_twap_order
    by_cases h : twap_num_intervals duration_minutes interval_seconds = 0
    · rw [if_pos h, h]
      rfl
    · rw [if_neg h]
      exact gatewayEvents_twapLoop V G symbol side _ hV _ 0

/-- Witness for C7 at the spec's concrete inputs: 5 minutes at 60-second
intervals yields 5 market orders of quantity 10/5 each; 1 minute at
120-second intervals yields an empty trace (zero gateway calls). -/
theorem claim_C7_witness :
    gatewayEvents
      (place_twap_order (fun _ _ _ => true) (fun _ => true) "BTCUSDT"
        Side.BUY 10 5 60) =
      List.replicate 5
        (marketIntent "BTCUSDT" Side.BUY
          (10 / ((twap_num_intervals 5 60 : ℕ) : ℚ))) ∧
    place_twap_order (fun _ _ _ => true) (fun _ => true) "BTCUSDT" Side.BUY
      10 1 120 = [] := by
  constructor
  · exact (claim_C7_twap_decomposition (fun _ _ _ => true) (fun _ => true)
      "BTCUSDT" Side.BUY 10 5 60).2.2.2 rfl
  · exact (claim_C7_twap_decomposition (fun _ _ _ => true) (fun _ => true)
      "BTCUSDT" Side.BUY 10 1 120).2.2.1 rfl

/-- C8.  The grid strategy aborts with no calls for `num_levels <= 1`;
for `num_levels > 1` with validation passing it submits exactly
`num_levels` limit orders (for every gateway behaviour), the i-th at price
`lower_bound + i * price_step` with
`price_step = (upper_bound - lower_bound) / (num_levels - 1)`, side BUY
exactly when the price is strictly below the midpoint
`(lower_bound + upper_bound) / 2` and SELL otherwise. -/
theorem claim_C8_grid_decomposition (V : Validator) (G : Gateway)
    (symbol : String) (lower_bound upper_bound quantity_per_level : ℚ)
    (num_levels : ℕ) :
    (num_levels ≤ 1 →
      place_grid_orders V G symbol lower_bound upper_bound num_levels
        quantity_per_level = []) ∧
    ((∀ p, V symbol quantity_per_level (some p) = true) → 1 < num_levels →
      gatewayEvents
        (place_grid_orders V G symbol lower_bound upper_bound num_levels
          quantity_per_level) =
        (List.range num_levels).map
          (fun i => gridIntent symbol lower_bound upper_bound
            (grid_price_step lower_bound upper_bound num_levels)
            quantity_per_level i)) ∧
    (∀ i : ℕ,
      gridIntent symbol lower_bound upper_bound
          (grid_price_step lower_bound upper_bound num_levels)
          quantity_per_level i =
        { symbol := symbol,
          side :=
            if lower_bound + (i : ℚ) *
                ((upper_bound - lower_bound) / ((num_levels : ℚ) - 1)) <
                (lower_bound + upper_bound) / 2 then Side.BUY else Side.SELL,
          type := OrderType.LIMIT,
          quantity := quantity_per_level,
          price := some (lower_bound + (i : ℚ) *
            ((upper_bound - lower_bound) / ((num_levels : ℚ) - 1))),
          stopPrice := none,
          timeInForce := some "GTC" }) := by
  refine ⟨?_, ?_, ?_⟩
  · intro h
    unfold place_grid_orders
    rw [if_pos h]
  · intro hV h1
    unfold place_grid_orders
    rw [if_neg (by omega)]
    rw [gatewayEvents_gridLoop V G symbol lower_bound upper_bound
      (grid_price_step lower_bound upper_bound num_levels)
      quantity_per_level hV num_levels 0]
    have harg : (fun j => gridIntent symbol lower_bound upper_bound
        (grid_price_step lower_bound upper_bound num_levels)
        quantity_per_level (0 + j)) =
        (fun j => gridIntent symbol lower_bound upper_bound
          (grid_price_step lower_bound upper_bound num_levels)
          quantity_per_level j) := by
      funext j
      rw [Nat.zero_add]
    rw [harg]
  · intro i
    rfl

/-- Witness for C8 at the spec's concrete inputs: bounds 100 and 200 with
3 levels give prices 100, 150, 200; the midpoint is 150, so the sides are
BUY, SELL, SELL; 1 level aborts with an empty trace. -/
theorem claim_C8_witness :
    place_grid_orders (fun _ _ _ => true) (fun _ => true) "BTCUSDT" 100 200
      1 1 = [] ∧
    gatewayEvents
      (place_grid_orders (fun _ _ _ => true) (fun _ => true) "BTCUSDT" 100
        200 3 1) =
      [{ symbol := "BTCUSDT", side := Side.BUY, type := OrderType.LIMIT,
         quantity := 1, price := some 100, stopPrice := none,
         timeInForce := some "GTC" },
       { symbol := "BTCUSDT", side := Side.SELL, type := OrderType.LIMIT,
         quantity := 1, price := some 150, stopPrice := none,
         timeInForce := some "GTC" },
       { symbol := "BTCUSDT", side := Side.SELL, type := OrderType.LIMIT,
         quantity := 1, price := some 200, stopPrice := none,
         timeInForce := some "GTC" }] := by
  constructor
  · exact (claim_C8_grid_decomposition (fun _ _ _ => true) (fun _ => true)
      "BTCUSDT" 100 200 1 1).1 (by norm_num)
  · rw [(claim_C8_grid_decomposition (fun _ _ _ => true) (fun _ => true)
      "BTCUSDT" 100 200 1 3).2.1 (fun p => rfl) (by norm_num)]
    rw [show List.range 3 = [0, 1, 2] from rfl]
    norm_num [gridIntent, gridSide, gridPrice, grid_price_step]

/-- C9.  The `ExchangeInfo` singleton fetches the exchange info at most
once per process: the first `get` on an unpopulated cache performs exactly
one fetch and stores the list; a `get` on a populated cache leaves the
state (fetch counter included) unchanged; after any `get`, further `get`s
change nothing and repeating the same symbol returns the identical result;
a symbol absent from the cached list yields `None` without a refetch. -/
theorem claim_C9_cache_fetch_once (fetched : List SymbolInfo)
    (s : CacheState) (symbol symbol2 : String) :
    (s.info = none →
      (cache_get fetched s symbol).2 =
        { fetchCount := s.fetchCount + 1, info := some fetched }) ∧
    (∀ l, s.info = some l → (cache_get fetched s symbol).2 = s) ∧
    ((cache_get fetched ((cache_get fetched s symbol2).2) symbol).2 =
      (cache_get fetched s symbol2).2) ∧
    ((cache_get fetched ((cache_get fetched s symbol).2) symbol).1 =
      (cache_get fetched s symbol).1) ∧
    (∀ l, s.info = some l → (∀ si ∈ l, si.symbol ≠ symbol) →
      (cache_get fetched s symbol).1 = none ∧
      (cache_get fetched s symbol).2.fetchCount = s.fetchCount) := by
  refine ⟨?_, ?_, ?_, ?_, ?_⟩
  · intro h
    simp [cache_get, ExchangeInfo.new, h]
  · intro l h
    simp [cache_get, ExchangeInfo.new, h]
  · cases h : s.info <;> simp [cache_get, ExchangeInfo.new, h]
  · cases h : s.info <;> simp [cache_get, ExchangeInfo.new, h]
  · intro l h habs
    constructor
    · simp only [cache_get, ExchangeInfo.new, h, get_symbol_info]
      rw [List.find?_eq_none]
      intro si hsi
      simpa using habs si hsi
    · simp [cache_get, ExchangeInfo.new, h]

/-- Witness for C9 at concrete inputs: starting from a fresh cache, the
first get fetches once; a second get performs no further fetch; BTCUSDT is
served from memory and XYZUSDT (absent) yields `None` without a refetch. -/
theorem claim_C9_cache_fetch_once_witness :
    (cache_get testInfoList { fetchCount := 0, info := none } "BTCUSDT").2 =
      { fetchCount := 1, info := some testInfoList } ∧
    (cache_get testInfoList
      ((cache_get testInfoList { fetchCount := 0, info := none }
        "BTCUSDT").2) "XYZUSDT").2 =
      (cache_get testInfoList { fetchCount := 0, info := none } "BTCUSDT").2 ∧
    (cache_get testInfoList { fetchCount := 1, info := some testInfoList }
      "XYZUSDT").1 = none ∧
    (cache_get testInfoList { fetchCount := 1, info := some testInfoList }
      "XYZUSDT").2.fetchCount = 1 := by
  refine ⟨?_, ?_, ?_, ?_⟩
  · exact (claim_C9_cache_fetch_once testInfoList
      { fetchCount := 0, info := none } "BTCUSDT" "BTCUSDT").1 rfl
  · exact (claim_C9_cache_fetch_once testInfoList
      { fetchCount := 0, info := none } "XYZUSDT" "BTCUSDT").2.2.1
  · exact ((claim_C9_cache_fetch_once testInfoList
      { fetchCount := 1, info := some testInfoList } "XYZUSDT"
      "XYZUSDT").2.2.2.2 testInfoList rfl
      (by intro si hsi; simp [testInfoList] at hsi; rw [hsi]; decide)).1
  · exact ((claim_C9_cache_fetch_once testInfoList
      { fetchCount := 1, info := some testInfoList } "XYZUSDT"
      "XYZUSDT").2.2.2.2 testInfoList rfl
      (by intro si hsi; simp [testInfoList] at hsi; rw [hsi]; decide)).2

/-- C10.  The source tests the truthiness of the price argument (`if
price:`), so a zero price behaves exactly as an absent price: all price
checks (range and tick) are skipped, and for any quantity passing the
quantity checks the validator returns a passing result — even when
`minPrice > 0` would make the price 0 out of range. -/
theorem claim_C10_zero_price_skips_price_checks (s : CacheState)
    (symbol sym0 : String) (pf : PriceFilter) (lsf : LotSizeFilter)
    (q : ℚ) :
    (validate_input s symbol q (some 0) = validate_input s symbol q none) ∧
    (get_symbol_info s symbol =
        some { symbol := sym0, price_filter := some pf,
               lot_size_filter := some lsf } →
      lsf.minQty ≤ q → q ≤ lsf.maxQty →
      pymod (q - lsf.minQty) lsf.stepSize = 0 →
      validate_input s symbol q (some 0) = true) := by
  constructor
  · unfold validate_input validate_input_logged
    cases hl : get_symbol_info s symbol with
    | none => rfl
    | some si =>
      cases hpf : si.price_filter <;> cases hlsf : si.lot_size_filter <;> rfl
  · intro hlookup h1 h2 hqs
    have hbase :=
      validate_input_logged_lookup s symbol sym0 pf lsf q (some 0) hlookup
    rw [validate_input, hbase,
      if_neg (range_not_violated_iff.mpr ⟨h1, h2⟩),
      if_neg (fun hne => hne hqs)]
    dsimp only
    rw [if_pos rfl]

/-- Witness for C10 at concrete inputs: with the repository's test filters
(minPrice 0.01 > 0), quantity 0.002 with price 0 passes validation. -/
theorem claim_C10_zero_price_witness :
    validate_input testCache "BTCUSDT" (2/1000) (some 0) = true ∧
    (0 : ℚ) < 1/100 := by
  constructor
  · exact (claim_C10_zero_price_skips_price_checks testCache "BTCUSDT"
      "BTCUSDT" { minPrice := 1/100, maxPrice := 100000, tickSize := 1/100 }
      { minQty := 1/1000, maxQty := 1000, stepSize := 1/1000 } (2/1000)).2
      rfl (by norm_num) (by norm_num) (by norm_num [pymod_def])
  · norm_num
